import Mathlib

/-!
Verification of the multivector algebra engine and the DSL pipeline
(lexer, parser, evaluator) of the GeometricAlgebraSandbox repository.

The embedding follows the source files:
  * `src/multivector.rs` — the 8-component 2D PGA value type and its
    products.  The `f32` components are modelled as elements of a field
    `α`; exact claims are stated over `ℚ`, claims about `magnitude`
    (which needs a square root) over `ℝ`.
  * `src/lexer.rs`, `src/parsing.rs` — source text is modelled as
    `List Char`, byte positions as character counts (they agree on ASCII
    sources, and every script a claim mentions is ASCII).  Loops are
    modelled with an explicit fuel argument so that every definition is
    structurally recursive and kernel-computable; each fuel is chosen at
    the call site to exceed the number of loop iterations (each iteration
    consumes at least one character or one token), so the fuel-exhausted
    branch is unreachable on every input.
  * `src/main.rs` — `App::update_code`, the statement-sequence driver
    (the `mod` declarations of `main.rs` do not include `evaluation.rs`,
    so the `evaluate_value` closure of `update_code` is the evaluator
    that runs; `evaluation.rs` is not part of the compiled crate).
-/

/-- `Multivector` of `src/multivector.rs`: one `f32` component per basis
blade of the 2D projective geometric algebra, here over a field `α`. -/
structure Multivector (α : Type) where
  s : α
  e0 : α
  e1 : α
  e2 : α
  e01 : α
  e02 : α
  e12 : α
  e012 : α
deriving DecidableEq

namespace Multivector

variable {α : Type} [Field α]

/-- `Multivector::ZERO`. -/
def ZERO : Multivector α :=
  { s := 0, e0 := 0, e1 := 0, e2 := 0, e01 := 0, e02 := 0, e12 := 0, e012 := 0 }

/-- Componentwise addition (the `derive_more::Add` impl). -/
def add (a b : Multivector α) : Multivector α :=
  { s := a.s + b.s, e0 := a.e0 + b.e0, e1 := a.e1 + b.e1, e2 := a.e2 + b.e2,
    e01 := a.e01 + b.e01, e02 := a.e02 + b.e02, e12 := a.e12 + b.e12,
    e012 := a.e012 + b.e012 }

instance : Add (Multivector α) := ⟨Multivector.add⟩

/-- Componentwise negation (the `derive_more::Neg` impl). -/
def neg (a : Multivector α) : Multivector α :=
  { s := -a.s, e0 := -a.e0, e1 := -a.e1, e2 := -a.e2,
    e01 := -a.e01, e02 := -a.e02, e12 := -a.e12, e012 := -a.e012 }

instance : Neg (Multivector α) := ⟨Multivector.neg⟩

/-- Componentwise subtraction (the `derive_more::Sub` impl). -/
def sub (a b : Multivector α) : Multivector α :=
  { s := a.s - b.s, e0 := a.e0 - b.e0, e1 := a.e1 - b.e1, e2 := a.e2 - b.e2,
    e01 := a.e01 - b.e01, e02 := a.e02 - b.e02, e12 := a.e12 - b.e12,
    e012 := a.e012 - b.e012 }

instance : Sub (Multivector α) := ⟨Multivector.sub⟩

/-- `Multivector::grade0`. -/
def grade0 (a : Multivector α) : Multivector α := { ZERO with s := a.s }

/-- `Multivector::grade1`. -/
def grade1 (a : Multivector α) : Multivector α :=
  { ZERO with e0 := a.e0, e1 := a.e1, e2 := a.e2 }

/-- `Multivector::grade2`. -/
def grade2 (a : Multivector α) : Multivector α :=
  { ZERO with e01 := a.e01, e02 := a.e02, e12 := a.e12 }

/-- `Multivector::grade3`. -/
def grade3 (a : Multivector α) : Multivector α := { ZERO with e012 := a.e012 }

/-- `Multivector::grade`: projection onto one grade, zero outside 0–3. -/
def grade (a : Multivector α) (g : Nat) : Multivector α :=
  match g with
  | 0 => a.grade0
  | 1 => a.grade1
  | 2 => a.grade2
  | 3 => a.grade3
  | _ => ZERO

/-- The geometric product, `impl Mul<Multivector> for Multivector`:
`_0 … _7` are the components of `self` (here `a`), `_8 … _15` those of
`other` (here `b`), in declaration order; each output component keeps the
source's exact sum. -/
def mul (a b : Multivector α) : Multivector α :=
  { s := ((((a.s * b.s) + (b.e1 * a.e1)) + (b.e2 * a.e2)) + -(b.e12 * a.e12)),
    e0 := ((((((((a.s * b.e0) + (a.e0 * b.s)) + -(b.e01 * a.e1)) + -(b.e02 * a.e2)) +
      (b.e1 * a.e01)) + (b.e2 * a.e02)) + -(b.e012 * a.e12)) + -(b.e12 * a.e012)),
    e1 := ((((a.s * b.e1) + (a.e1 * b.s)) + -(b.e12 * a.e2)) + (b.e2 * a.e12)),
    e2 := ((((a.s * b.e2) + (b.e12 * a.e1)) + (a.e2 * b.s)) + -(b.e1 * a.e12)),
    e01 := ((((((((a.s * b.e01) + (a.e0 * b.e1)) + -(a.e1 * b.e0)) + (b.e012 * a.e2)) +
      (a.e01 * b.s)) + -(b.e12 * a.e02)) + (b.e02 * a.e12)) + (b.e2 * a.e012)),
    e02 := ((((((((a.s * b.e02) + (a.e0 * b.e2)) + -(b.e012 * a.e1)) + -(a.e2 * b.e0)) +
      (b.e12 * a.e01)) + (a.e02 * b.s)) + -(b.e01 * a.e12)) + -(b.e1 * a.e012)),
    e12 := ((((a.s * b.e12) + (b.e2 * a.e1)) + -(b.e1 * a.e2)) + (a.e12 * b.s)),
    e012 := ((((((((a.s * b.e012) + (a.e0 * b.e12)) + -(b.e02 * a.e1)) + (b.e01 * a.e2)) +
      (b.e2 * a.e01)) + -(b.e1 * a.e02)) + (a.e12 * b.e0)) + (a.e012 * b.s)) }

instance : Mul (Multivector α) := ⟨Multivector.mul⟩

/-- `impl Mul<f32> for Multivector`: componentwise scaling. -/
def mulScalar (a : Multivector α) (other : α) : Multivector α :=
  { s := a.s * other, e0 := a.e0 * other, e1 := a.e1 * other, e2 := a.e2 * other,
    e01 := a.e01 * other, e02 := a.e02 * other, e12 := a.e12 * other,
    e012 := a.e012 * other }

/-- `impl Div<f32> for Multivector`: `self * other.recip()`. -/
def divScalar (a : Multivector α) (other : α) : Multivector α :=
  a.mulScalar other⁻¹

/-- `Multivector::wedge`: the double loop
`for j in 0..=3 { for k in 0..=3 { result += (grade_j * grade_k).grade(j+k) } }`. -/
def wedge (a b : Multivector α) : Multivector α :=
  (List.range 4).foldl
    (fun result j =>
      (List.range 4).foldl
        (fun result k => result + ((a.grade j) * (b.grade k)).grade (j + k))
        result)
    ZERO

/-- `Multivector::inner`: same double loop keeping grade `|j - k|`
(`usize::abs_diff`, here `Nat.dist`). -/
def inner (a b : Multivector α) : Multivector α :=
  (List.range 4).foldl
    (fun result j =>
      (List.range 4).foldl
        (fun result k => result + ((a.grade j) * (b.grade k)).grade (Nat.dist j k))
        result)
    ZERO

/-- `Multivector::reverse`: negate the grade-2 and grade-3 components. -/
def reverse (a : Multivector α) : Multivector α :=
  { s := a.s, e0 := a.e0, e1 := a.e1, e2 := a.e2,
    e01 := -a.e01, e02 := -a.e02, e12 := -a.e12, e012 := -a.e012 }

/-- `Multivector::dual`. -/
def dual (a : Multivector α) : Multivector α :=
  { s := a.e012, e0 := a.e12, e1 := -a.e02, e2 := a.e01,
    e01 := a.e2, e02 := -a.e1, e12 := a.e0, e012 := a.s }

/-- `Multivector::dual_inverse` — the source's body is identical to
`dual`'s. -/
def dual_inverse (a : Multivector α) : Multivector α :=
  { s := a.e012, e0 := a.e12, e1 := -a.e02, e2 := a.e01,
    e01 := a.e2, e02 := -a.e1, e12 := a.e0, e012 := a.s }

/-- `Multivector::regressive`: `self.dual().wedge(other.dual()).dual_inverse()`. -/
def regressive (a b : Multivector α) : Multivector α :=
  ((a.dual).wedge (b.dual)).dual_inverse

/-- `Multivector::sqr_magnitude`: `(self * self.reverse()).s`. -/
def sqr_magnitude (a : Multivector α) : α :=
  (a * a.reverse).s

/-- `Multivector::magnitude`: `self.sqr_magnitude().sqrt()`, over `ℝ`. -/
noncomputable def magnitude (a : Multivector ℝ) : ℝ :=
  Real.sqrt a.sqr_magnitude

/-- `Multivector::normalised`: divide by the magnitude when it is at least
`0.0001`, otherwise return the value unchanged. -/
noncomputable def normalised (a : Multivector ℝ) : Multivector ℝ :=
  if 0.0001 ≤ a.magnitude then a.divScalar a.magnitude else a

end Multivector

/-- The basis vector `e0` (the `Parameter` named `"e0"` in `App::new`). -/
def e0v : Multivector ℚ := { Multivector.ZERO with e0 := 1 }

/-- The basis vector `e1`. -/
def e1v : Multivector ℚ := { Multivector.ZERO with e1 := 1 }

/-- The basis vector `e2`. -/
def e2v : Multivector ℚ := { Multivector.ZERO with e2 := 1 }

/-- The basis bivector `e12`. -/
def e12v : Multivector ℚ := { Multivector.ZERO with e12 := 1 }

/-- A pure scalar multivector, `Multivector { s, ..ZERO }`. -/
def scalarMV (q : ℚ) : Multivector ℚ := { Multivector.ZERO with s := q }

deriving instance DecidableEq for Except

/-! ## Lexer (`src/lexer.rs`) -/

/-- `Location`: byte offset (modelled as a character index — they agree on
ASCII sources), 1-based line and column. -/
structure Location where
  position : Nat
  line : Nat
  column : Nat
deriving DecidableEq

/-- The `Display` impl for `Location`: `"{line}:{column}"`. -/
def Location.display (l : Location) : String :=
  Nat.repr l.line ++ ":" ++ Nat.repr l.column

/-- `LexerErrorKind`. -/
inductive LexerErrorKind where
  | UnexpectedChar (c : Char)
  | InvalidNumber
deriving DecidableEq

/-- `LexerError`. -/
structure LexerError where
  location : Location
  kind : LexerErrorKind
deriving DecidableEq

/-- `TokenKind`.  Number literals are `f32` in the source; they are
modelled as `ℚ` (every literal a claim mentions is exactly representable). -/
inductive TokenKind where
  | Name (name : String)
  | NormalizeKeyword
  | MagnitudeKeyword
  | SinKeyword
  | CosKeyword
  | ASinKeyword
  | ACosKeyword
  | Number (number : ℚ)
  | OpenParenthesis
  | CloseParenthesis
  | Semicolon
  | Plus
  | Minus
  | Asterisk
  | Slash
  | Caret
  | Pipe
  | Ampersand
  | ExclamationMark
  | Tilde
  | Equal
deriving DecidableEq

/-- `Token`. -/
structure Token where
  location : Location
  kind : TokenKind
deriving DecidableEq

/-- `Lexer`: the source, the remaining characters (`Peekable<CharIndices>`),
and the current location. -/
structure Lexer where
  source : List Char
  chars : List Char
  location : Location
deriving DecidableEq

/-- `Lexer::new`. -/
def Lexer.new (source : String) : Lexer :=
  { source := source.data, chars := source.data,
    location := { position := 0, line := 1, column := 1 } }

/-- `Lexer::peek_char`. -/
def Lexer.peek_char (l : Lexer) : Option Char :=
  l.chars.head?

/-- `Lexer::next_char`: consume one character; `position` becomes the index
of the next character (or the source length); the column advances, and a
newline resets it and advances the line. -/
def Lexer.next_char (l : Lexer) : Option (Char × Lexer) :=
  match l.chars with
  | [] => none
  | c :: rest =>
    let position := l.source.length - rest.length
    let location :=
      if c = '\n' then
        { position := position, line := l.location.line + 1, column := 1 }
      else
        { position := position, line := l.location.line,
          column := l.location.column + 1 }
    some (c, { l with chars := rest, location := location })

/-- The `while let Some(c) = self.peek_char() && pred { self.next_char(); }`
loops inside `Lexer::next_token`, with explicit fuel (one unit per consumed
character). -/
def Lexer.lexWhileF (fuel : Nat) (p : Char → Bool) (l : Lexer) : Lexer :=
  match fuel with
  | 0 => l
  | fuel + 1 =>
    match l.peek_char with
    | none => l
    | some c =>
      if p c then
        match l.next_char with
        | none => l
        | some (_, l1) => Lexer.lexWhileF fuel p l1
      else l

/-- The scan loop with its fuel instantiated: each iteration consumes one
character, so `l.chars.length` units always run the loop to its own exit. -/
def Lexer.lexWhile (p : Char → Bool) (l : Lexer) : Lexer :=
  Lexer.lexWhileF l.chars.length p l

/-- The digit-and-dot runs the lexer feeds to `<f32 as FromStr>::from_str`:
a run of ASCII digits, `none` otherwise (a non-ASCII `is_numeric` character
makes the parse fail in the source too). -/
def digitsToNat (text : List Char) : Option Nat :=
  match text with
  | [] => none
  | _ =>
    if text.all Char.isDigit then
      some (text.foldl (fun n c => n * 10 + c.toNat - '0'.toNat) 0)
    else
      none

/-- `str::parse::<f32>` restricted to the lexer's number runs
(`[digit][digit | .]*`): at most one dot, and a trailing dot is allowed
(`"1."` parses, `"1.2.3"` does not).  The value is modelled exactly in `ℚ`. -/
def parse_number (text : List Char) : Option ℚ :=
  match text.splitOn '.' with
  | [intPart] => (digitsToNat intPart).map (fun n => (n : ℚ))
  | [intPart, fracPart] =>
    match digitsToNat intPart with
    | none => none
    | some ip =>
      if fracPart.isEmpty then
        some (ip : ℚ)
      else
        (digitsToNat fracPart).map
          (fun fp => (ip : ℚ) + (fp : ℚ) / (10 : ℚ) ^ fracPart.length)
  | _ => none

/-- The reserved-identifier match inside `Lexer::next_token`. -/
def keyword_or_name (text : String) : TokenKind :=
  if text = "normalize" then .NormalizeKeyword
  else if text = "magnitude" then .MagnitudeKeyword
  else if text = "sin" then .SinKeyword
  else if text = "cos" then .CosKeyword
  else if text = "asin" then .ASinKeyword
  else if text = "acos" then .ACosKeyword
  else .Name text

/-- The slice `self.source[start..end]` (character indices; equal to the
source's byte indices on the ASCII scripts the claims use). -/
def sourceSlice (source : List Char) (start stop : Nat) : String :=
  String.mk ((source.drop start).take (stop - start))

/-- `Lexer::next_token` with explicit fuel for its whitespace-skipping
`loop` (one unit per consumed whitespace character).  Character classes use
Lean's `Char` predicates for Rust's (`is_alphabetic`/`is_alphanumeric`/
`is_numeric`/`is_whitespace`); they agree on ASCII. -/
def Lexer.next_tokenF (fuel : Nat) (l : Lexer) : Except LexerError (Option Token × Lexer) :=
  match fuel with
  | 0 => .ok (none, l)
  | fuel + 1 =>
    let start_location := l.location
    match l.next_char with
    | none => .ok (none, l)
    | some (c, l1) =>
      if c = '(' then .ok (some ⟨start_location, .OpenParenthesis⟩, l1)
      else if c = ')' then .ok (some ⟨start_location, .CloseParenthesis⟩, l1)
      else if c = ';' then .ok (some ⟨start_location, .Semicolon⟩, l1)
      else if c = '+' then .ok (some ⟨start_location, .Plus⟩, l1)
      else if c = '-' then .ok (some ⟨start_location, .Minus⟩, l1)
      else if c = '*' then .ok (some ⟨start_location, .Asterisk⟩, l1)
      else if c = '/' then .ok (some ⟨start_location, .Slash⟩, l1)
      else if c = '^' then .ok (some ⟨start_location, .Caret⟩, l1)
      else if c = '|' then .ok (some ⟨start_location, .Pipe⟩, l1)
      else if c = '&' then .ok (some ⟨start_location, .Ampersand⟩, l1)
      else if c = '!' then .ok (some ⟨start_location, .ExclamationMark⟩, l1)
      else if c = '~' then .ok (some ⟨start_location, .Tilde⟩, l1)
      else if c = '=' then .ok (some ⟨start_location, .Equal⟩, l1)
      else if c.isAlpha || c = '_' then
        let l2 := l1.lexWhile (fun ch => ch.isAlphanum || ch = '_')
        let text := sourceSlice l.source start_location.position l2.location.position
        .ok (some ⟨start_location, keyword_or_name text⟩, l2)
      else if c.isDigit then
        let l2 := l1.lexWhile (fun ch => ch.isDigit || ch = '.')
        let text := (l.source.drop start_location.position).take
          (l2.location.position - start_location.position)
        match parse_number text with
        | some value => .ok (some ⟨start_location, .Number value⟩, l2)
        | none => .error ⟨start_location, .InvalidNumber⟩
      else if c.isWhitespace then
        Lexer.next_tokenF fuel l1
      else
        .error ⟨start_location, .UnexpectedChar c⟩

/-- `Lexer::next_token`, its skip loop fueled by `chars.length + 1` (the
loop consumes a character per iteration, so the fuel never runs out). -/
def Lexer.next_token (l : Lexer) : Except LexerError (Option Token × Lexer) :=
  Lexer.next_tokenF (l.chars.length + 1) l

/-- `Lexer::peek_token`: `self.clone().next_token()` — the lookahead result
without the state change. -/
def Lexer.peek_token (l : Lexer) : Except LexerError (Option Token) :=
  (l.next_token).map (fun r => r.1)

/-! ## Parser (`src/parsing.rs`) -/

/-- `ParseErrorKind`. -/
inductive ParseErrorKind where
  | LexerError (kind : LexerErrorKind)
  | UnexpectedEOI
  | UnexpectedToken (token : Token)
deriving DecidableEq

/-- `ParseError`. -/
structure ParseError where
  location : Location
  kind : ParseErrorKind
deriving DecidableEq

/-- `impl From<LexerError> for ParseError`. -/
def ParseError.ofLexerError (e : LexerError) : ParseError :=
  { location := e.location, kind := .LexerError e.kind }

/-- `UnaryOperator` of `src/parsing.rs` — the compiled crate's parser has
exactly these three. -/
inductive UnaryOperator where
  | Negate
  | Dual
  | Reverse
deriving DecidableEq

/-- `BinaryOperator`. -/
inductive BinaryOperator where
  | Add
  | Subtract
  | Multiply
  | Divide
  | Wedge
  | Inner
  | Regressive
deriving DecidableEq

/-- `AstExpression`: the source's `struct { location, kind }` with the
`AstExpressionKind` variants inlined as constructors, each carrying the
struct's `location` first. -/
inductive AstExpression where
  | Name (location : Location) (name : String) (name_token : Token)
  | Number (location : Location) (number : ℚ) (number_token : Token)
  | Unary (location : Location) (operator : UnaryOperator) (operator_token : Token)
      (operand : AstExpression)
  | Binary (location : Location) (left : AstExpression) (operator : BinaryOperator)
      (operator_token : Token) (right : AstExpression)
deriving DecidableEq

/-- `AstStatement`: the single `Assignment` variant with its struct's
`location` (the equals token's location). -/
inductive AstStatement where
  | Assignment (location : Location) (name : String) (name_token : Token)
      (equals_token : Token) (value : AstExpression)
deriving DecidableEq

/-- `usize::MAX`, the precedence bound given to a unary operator's operand. -/
def USIZE_MAX : Nat := 2 ^ 64 - 1

/-- The `expect_token!` macro for a wildcard or single-kind pattern: next
token, `UnexpectedEOI` at the lexer's (post-skip) location when input ends,
`UnexpectedToken` when the kind check fails. -/
def expect_token (p : TokenKind → Bool) (l : Lexer) : Except ParseError (Token × Lexer) :=
  match l.next_token with
  | .error e => .error (ParseError.ofLexerError e)
  | .ok (none, l1) => .error { location := l1.location, kind := .UnexpectedEOI }
  | .ok (some token, l1) =>
    if p token.kind then
      .ok (token, l1)
    else
      .error { location := token.location, kind := .UnexpectedToken token }

/-- `expect_token!(self, TokenKind::Name(name), name)`: like `expect_token`
but extracting the name. -/
def expect_name (l : Lexer) : Except ParseError ((Token × String) × Lexer) :=
  match l.next_token with
  | .error e => .error (ParseError.ofLexerError e)
  | .ok (none, l1) => .error { location := l1.location, kind := .UnexpectedEOI }
  | .ok (some token, l1) =>
    match token.kind with
    | .Name name => .ok ((token, name), l1)
    | _ => .error { location := token.location, kind := .UnexpectedToken token }

/-- The operator table of `Parser::parse_binary_expression`'s loop:
`(precedence, operator)` for the next token, `none` for any other token. -/
def binary_operator_of (kind : TokenKind) : Option (Nat × BinaryOperator) :=
  match kind with
  | .Plus => some (1, .Add)
  | .Minus => some (1, .Subtract)
  | .Asterisk => some (2, .Multiply)
  | .Slash => some (2, .Divide)
  | .Caret => some (2, .Wedge)
  | .Pipe => some (2, .Inner)
  | .Ampersand => some (2, .Regressive)
  | _ => none

/-- The unary-operator peek at the top of `Parser::parse_binary_expression`. -/
def unary_operator_of (kind : TokenKind) : Option UnaryOperator :=
  match kind with
  | .Minus => some UnaryOperator.Negate
  | .ExclamationMark => some UnaryOperator.Dual
  | .Tilde => some UnaryOperator.Reverse
  | _ => none

mutual

/-- `Parser::parse_binary_expression`, fueled (`none` = fuel exhausted,
which no claim's input reaches: every recursive call follows the
consumption of at least one token). -/
def parse_binary_expression (fuel : Nat) (parent_precedence : Nat) (l : Lexer) :
    Option (Except ParseError (AstExpression × Lexer)) :=
  match fuel with
  | 0 => none
  | fuel + 1 =>
    match l.peek_token with
    | .error e => some (.error (ParseError.ofLexerError e))
    | .ok peeked =>
      match (peeked.map Token.kind).bind unary_operator_of with
      | some operator =>
        match expect_token (fun _ => true) l with
        | .error e => some (.error e)
        | .ok (operator_token, l1) =>
          match parse_binary_expression fuel USIZE_MAX l1 with
          | none => none
          | some (.error e) => some (.error e)
          | some (.ok (operand, l2)) =>
            parse_binary_loop fuel parent_precedence
              (.Unary operator_token.location operator operator_token operand) l2
      | none =>
        match parse_primary_expression fuel l with
        | none => none
        | some (.error e) => some (.error e)
        | some (.ok (left, l1)) => parse_binary_loop fuel parent_precedence left l1

/-- The `loop` at the bottom of `Parser::parse_binary_expression`: as long
as the peeked operator's precedence exceeds `parent_precedence`, consume it,
parse the right-hand side at that precedence and fold leftwards. -/
def parse_binary_loop (fuel : Nat) (parent_precedence : Nat) (left : AstExpression)
    (l : Lexer) : Option (Except ParseError (AstExpression × Lexer)) :=
  match fuel with
  | 0 => none
  | fuel + 1 =>
    match l.peek_token with
    | .error e => some (.error (ParseError.ofLexerError e))
    | .ok peeked =>
      match (peeked.map Token.kind).bind binary_operator_of with
      | none => some (.ok (left, l))
      | some (precedence, operator) =>
        if precedence ≤ parent_precedence then
          some (.ok (left, l))
        else
          match expect_token (fun _ => true) l with
          | .error e => some (.error e)
          | .ok (operator_token, l1) =>
            match parse_binary_expression fuel precedence l1 with
            | none => none
            | some (.error e) => some (.error e)
            | some (.ok (right, l2)) =>
              parse_binary_loop fuel parent_precedence
                (.Binary operator_token.location left operator operator_token right) l2

/-- `Parser::parse_primary_expression`. -/
def parse_primary_expression (fuel : Nat) (l : Lexer) :
    Option (Except ParseError (AstExpression × Lexer)) :=
  match fuel with
  | 0 => none
  | fuel + 1 =>
    match expect_token (fun _ => true) l with
    | .error e => some (.error e)
    | .ok (token, l1) =>
      match token.kind with
      | .Name name => some (.ok (.Name token.location name token, l1))
      | .Number number => some (.ok (.Number token.location number token, l1))
      | .OpenParenthesis =>
        match parse_binary_expression fuel 0 l1 with
        | none => none
        | some (.error e) => some (.error e)
        | some (.ok (expression, l2)) =>
          match expect_token (fun k => k = TokenKind.CloseParenthesis) l2 with
          | .error e => some (.error e)
          | .ok (_, l3) => some (.ok (expression, l3))
      | _ => some (.error { location := token.location, kind := .UnexpectedToken token })

end

/-- `Parser::parse_expression`: `parse_binary_expression(0)`. -/
def parse_expression (fuel : Nat) (l : Lexer) :
    Option (Except ParseError (AstExpression × Lexer)) :=
  parse_binary_expression fuel 0 l

/-- `Parser::parse_statement`: `NAME '=' expression ';'`; the statement's
location is the equals token's. -/
def parse_statement (fuel : Nat) (l : Lexer) :
    Option (Except ParseError (AstStatement × Lexer)) :=
  match expect_name l with
  | .error e => some (.error e)
  | .ok ((name_token, name), l1) =>
    match expect_token (fun k => k = TokenKind.Equal) l1 with
    | .error e => some (.error e)
    | .ok (equals_token, l2) =>
      match parse_expression fuel l2 with
      | none => none
      | some (.error e) => some (.error e)
      | some (.ok (value, l3)) =>
        match expect_token (fun k => k = TokenKind.Semicolon) l3 with
        | .error e => some (.error e)
        | .ok (_, l4) =>
          some (.ok (.Assignment equals_token.location name name_token equals_token value, l4))

/-- The statement loop of `parse`: while `peek_token()` yields a token,
parse one statement and push it. -/
def parseF (fuel : Nat) (l : Lexer) (statements : List AstStatement) :
    Option (Except ParseError (List AstStatement)) :=
  match fuel with
  | 0 => none
  | fuel + 1 =>
    match l.peek_token with
    | .error e => some (.error (ParseError.ofLexerError e))
    | .ok none => some (.ok statements)
    | .ok (some _) =>
      match parse_statement fuel l with
      | none => none
      | some (.error e) => some (.error e)
      | some (.ok (statement, l1)) => parseF fuel l1 (statements ++ [statement])

/-- `parse`: run the statement loop on a fresh lexer.  The fuel
`4 * length + 8` exceeds the recursion depth on every input (each nested
call follows the consumption of a token, and a token is at least one
character), so the fuel-exhausted fallback (an `UnexpectedEOI` at the start)
is unreachable. -/
def parse (source : String) : Except ParseError (List AstStatement) :=
  match parseF (4 * source.length + 8) (Lexer.new source) [] with
  | some result => result
  | none => .error { location := (Lexer.new source).location, kind := .UnexpectedEOI }

/-! ## Evaluator and driver (`src/main.rs`, `App::update_code`) -/

/-- The `Display` impl of `TokenKind` (via `derive_more::Display`).  The
`Number` case renders an `f32` in Rust; integral values print the same
here, and no claim exercises a non-integral one. -/
def TokenKind.display (kind : TokenKind) : String :=
  match kind with
  | .Name name => name
  | .NormalizeKeyword => "normalize"
  | .MagnitudeKeyword => "magnitude"
  | .SinKeyword => "sin"
  | .CosKeyword => "cos"
  | .ASinKeyword => "asin"
  | .ACosKeyword => "acos"
  | .Number number => if number.den = 1 then Int.repr number.num else toString number
  | .OpenParenthesis => "("
  | .CloseParenthesis => ")"
  | .Semicolon => ";"
  | .Plus => "+"
  | .Minus => "-"
  | .Asterisk => "*"
  | .Slash => "/"
  | .Caret => "^"
  | .Pipe => "|"
  | .Ampersand => "&"
  | .ExclamationMark => "!"
  | .Tilde => "~"
  | .Equal => "="

/-- The `Display` impl of `LexerErrorKind`. -/
def LexerErrorKind.display (kind : LexerErrorKind) : String :=
  match kind with
  | .UnexpectedChar c => "Unexpected character '" ++ String.mk [c] ++ "'"
  | .InvalidNumber => "Invalid number"

/-- The `Display` impl of `ParseErrorKind`. -/
def ParseErrorKind.display (kind : ParseErrorKind) : String :=
  match kind with
  | .LexerError k => k.display
  | .UnexpectedEOI => "Unexpected end of input"
  | .UnexpectedToken token => "Unexpected token '" ++ token.kind.display ++ "'"

/-- The `Error`/`Display` impl of `ParseError`: `"{location}: {kind}"`. -/
def ParseError.display (e : ParseError) : String :=
  e.location.display ++ ": " ++ e.kind.display

/-- The variable environment `HashMap<String, Multivector>`, modelled as an
association list in which the most recent insertion shadows older entries. -/
abbrev Variables := List (String × Multivector ℚ)

/-- `HashMap::get`. -/
def lookup_variable (vars : Variables) (name : String) : Option (Multivector ℚ) :=
  match vars with
  | [] => none
  | (k, v) :: rest => if k = name then some v else lookup_variable rest name

/-- `HashMap::insert` (overwrite, realized as shadowing). -/
def insert_variable (vars : Variables) (name : String) (value : Multivector ℚ) : Variables :=
  (name, value) :: vars

/-- The `evaluate_value` closure inside `App::update_code` — the evaluator
of the compiled crate (its `UnaryOperator` match has exactly the three
variants `Negate`, `Dual`, `Reverse`). -/
def evaluate_value (expression : AstExpression) (vars : Variables) :
    Except String (Multivector ℚ) :=
  match expression with
  | .Name _ name name_token =>
    match lookup_variable vars name with
    | some value => .ok value
    | none =>
      .error (name_token.location.display ++ ": Unknown variable '" ++ name ++ "'")
  | .Number _ number _ => .ok { Multivector.ZERO with s := number }
  | .Unary _ operator _ operand =>
    match evaluate_value operand vars with
    | .error e => .error e
    | .ok operand =>
      match operator with
      | .Negate => .ok (-operand)
      | .Dual => .ok operand.dual
      | .Reverse => .ok operand.reverse
  | .Binary _ left operator operator_token right =>
    match evaluate_value left vars with
    | .error e => .error e
    | .ok left =>
      match evaluate_value right vars with
      | .error e => .error e
      | .ok right =>
        match operator with
        | .Add => .ok (left + right)
        | .Subtract => .ok (left - right)
        | .Multiply => .ok (left * right)
        | .Divide =>
          .error (operator_token.location.display ++ ": Divide unimplemented")
        | .Wedge => .ok (left.wedge right)
        | .Inner => .ok (left.inner right)
        | .Regressive => .ok (left.regressive right)

/-- The `for statement in statements` loop of `App::update_code`: on an
evaluation error the error is pushed and the loop `break 'evaluation`s —
the environment keeps its state and the remaining statements never run. -/
def run_statements (statements : List AstStatement) (vars : Variables)
    (errors : List String) : List String × Variables :=
  match statements with
  | [] => (errors, vars)
  | .Assignment _ name _ _ value :: rest =>
    match evaluate_value value vars with
    | .error e => (errors ++ [e], vars)
    | .ok v => run_statements rest (insert_variable vars name v) errors

/-- `App::update_code`: rebuild the environment from the parameters, clear
the errors, parse (a parse error is pushed and nothing runs), then run the
statements.  Returns the error list and the final environment. -/
def update_code (code : String) (parameters : List (String × Multivector ℚ)) :
    List String × Variables :=
  let vars := parameters.foldl
    (fun vars p => insert_variable vars p.1 p.2) ([] : Variables)
  match parse code with
  | .error e => ([e.display], vars)
  | .ok statements => run_statements statements vars []

/-- The shape of an expression: the AST with the locations and tokens
erased, for stating parse results compactly. -/
inductive ExprShape where
  | name (n : String)
  | number (q : ℚ)
  | unary (op : UnaryOperator) (operand : ExprShape)
  | binary (left : ExprShape) (op : BinaryOperator) (right : ExprShape)
deriving DecidableEq

/-- Erase locations and tokens from an expression. -/
def AstExpression.shape : AstExpression → ExprShape
  | .Name _ name _ => .name name
  | .Number _ number _ => .number number
  | .Unary _ operator _ operand => .unary operator operand.shape
  | .Binary _ left operator _ right => .binary left.shape operator right.shape

/-- Erase locations and tokens from a statement: the assigned name and the
value expression's shape. -/
def AstStatement.shape : AstStatement → String × ExprShape
  | .Assignment _ name _ _ value => (name, value.shape)

/-! ## Theorems -/

theorem Multivector.mul_def {α : Type} [Field α] (a b : Multivector α) :
    a * b = Multivector.mul a b := rfl

theorem Multivector.add_def {α : Type} [Field α] (a b : Multivector α) :
    a + b = Multivector.add a b := rfl

theorem Multivector.neg_def {α : Type} [Field α] (a : Multivector α) :
    -a = Multivector.neg a := rfl

theorem Multivector.sub_def {α : Type} [Field α] (a b : Multivector α) :
    a - b = Multivector.sub a b := rfl

/-- The squared magnitude of `src/multivector.rs` expands to the sum of the
squares of the `s`, `e1`, `e2` and `e12` components. -/
theorem Multivector.sqr_magnitude_eq (a : Multivector ℝ) :
    a.sqr_magnitude = a.s ^ 2 + a.e1 ^ 2 + a.e2 ^ 2 + a.e12 ^ 2 := by
  simp only [Multivector.sqr_magnitude, Multivector.mul_def, Multivector.mul,
    Multivector.reverse]
  ring

/-- The squared magnitude is homogeneous of degree two under componentwise
scaling. -/
theorem Multivector.sqr_magnitude_mulScalar (a : Multivector ℝ) (c : ℝ) :
    (a.mulScalar c).sqr_magnitude = c ^ 2 * a.sqr_magnitude := by
  simp only [Multivector.sqr_magnitude, Multivector.mul_def, Multivector.mul,
    Multivector.reverse, Multivector.mulScalar]
  ring

/-- C3: the geometric product satisfies the basis multiplication table of
the degenerate metric — `e0*e0 = 0`, `e1*e1 = 1`, `e2*e2 = 1`,
`e1*e2 = e12` and `e2*e1 = -e12`. -/
theorem geometric_product_basis_table :
    e0v * e0v = Multivector.ZERO ∧ e1v * e1v = scalarMV 1 ∧
    e2v * e2v = scalarMV 1 ∧ e1v * e2v = e12v ∧ e2v * e1v = -e12v := by
  refine ⟨?_, ?_, ?_, ?_, ?_⟩ <;>
    simp only [Multivector.mul_def, Multivector.mul, Multivector.neg_def,
      Multivector.neg, e0v, e1v, e2v, e12v, scalarMV, Multivector.ZERO,
      Multivector.mk.injEq] <;>
    norm_num

/-- C9: reversion is an involution, and `dual` undoes `dual_inverse`. -/
theorem reverse_reverse_dual_dual_inverse_id :
    ∀ {α : Type} [Field α] (a : Multivector α),
      a.reverse.reverse = a ∧ (a.dual_inverse).dual = a := by
  intro α _ a
  constructor <;>
    simp only [Multivector.reverse, Multivector.dual, Multivector.dual_inverse, neg_neg]

/-- C10: the regressive product is the dual of the wedge of the duals (the
source computes `dual_inverse(dual(a) ∧ dual(b))`, and `dual_inverse`
coincides with `dual`). -/
theorem regressive_is_dual_wedge_duals :
    ∀ {α : Type} [Field α] (a b : Multivector α),
      a.regressive b = ((a.dual).wedge (b.dual)).dual := by
  intro α _ a b
  rfl

/-- C4 counterexample: no multivector has a negative squared magnitude —
`(a * reverse(a)).s` is `s² + e1² + e2² + e12²`, a sum of squares, so the
claimed witness of a negative squared magnitude (and a NaN magnitude)
does not exist. -/
theorem no_negative_sqr_magnitude :
    ¬ ∃ a : Multivector ℝ, a.sqr_magnitude < 0 := by
  rintro ⟨a, h⟩
  rw [Multivector.sqr_magnitude_eq] at h
  nlinarith [sq_nonneg a.s, sq_nonneg a.e1, sq_nonneg a.e2, sq_nonneg a.e12]

/-- C4 (amended): for every multivector the squared magnitude equals
`s² + e1² + e2² + e12²` and is nonnegative, so the naive square root never
receives a negative argument. -/
theorem sqr_magnitude_sum_of_squares_nonneg :
    ∀ a : Multivector ℝ,
      a.sqr_magnitude = a.s ^ 2 + a.e1 ^ 2 + a.e2 ^ 2 + a.e12 ^ 2 ∧
      0 ≤ a.sqr_magnitude := by
  intro a
  refine ⟨Multivector.sqr_magnitude_eq a, ?_⟩
  rw [Multivector.sqr_magnitude_eq]
  positivity

/-- C5: `normalised` rescales to magnitude 1 whenever the magnitude is at
least `0.0001`, and returns the value unchanged whenever the magnitude is
below `0.0001`. -/
theorem normalised_magnitude_spec :
    ∀ a : Multivector ℝ,
      (0.0001 ≤ a.magnitude → (a.normalised).magnitude = 1) ∧
      (a.magnitude < 0.0001 → a.normalised = a) := by
  intro a
  constructor
  · intro h
    have hQ0 : 0 ≤ a.sqr_magnitude := by
      rw [Multivector.sqr_magnitude_eq]; positivity
    have hm0 : 0 < a.magnitude := lt_of_lt_of_le (by norm_num) h
    have hQ : a.sqr_magnitude = a.magnitude ^ 2 := (Real.sq_sqrt hQ0).symm
    rw [Multivector.normalised, if_pos h]
    simp only [Multivector.divScalar]
    rw [Multivector.magnitude, Multivector.sqr_magnitude_mulScalar, hQ]
    have h1 : (a.magnitude)⁻¹ ^ 2 * a.magnitude ^ 2 = 1 := by
      field_simp
    rw [h1, Real.sqrt_one]
  · intro h
    rw [Multivector.normalised, if_neg (not_le.mpr h)]

set_option maxHeartbeats 4000000 in
/-- C6: parsing `"x = -e1 ^ e2;"` yields one assignment whose value is a
wedge whose left operand is the negation of `e1` — the prefix `-` binds
only to `e1`, not across the `^`. -/
theorem parse_unary_binds_tighter_than_wedge :
    (parse "x = -e1 ^ e2;").map (List.map AstStatement.shape) =
      .ok [("x", .binary (.unary .Negate (.name "e1")) .Wedge (.name "e2"))] := by
  decide

set_option maxHeartbeats 4000000 in
/-- C7: a binary `Divide` node always evaluates to the error
`"{line}:{column}: Divide unimplemented"` located at the `/` token whenever
its operands evaluate, and running `"x = 1 / 2;"` yields exactly the one
error `"1:7: Divide unimplemented"`. -/
theorem divide_always_unimplemented :
    (∀ (vars : Variables) (loc : Location) (left right : AstExpression)
        (optok : Token) (vl vr : Multivector ℚ),
        evaluate_value left vars = .ok vl →
        evaluate_value right vars = .ok vr →
        evaluate_value (.Binary loc left .Divide optok right) vars =
          .error (optok.location.display ++ ": Divide unimplemented")) ∧
      update_code "x = 1 / 2;" [] = (["1:7: Divide unimplemented"], []) := by
  constructor
  · intro vars loc left right optok vl vr h1 h2
    simp only [evaluate_value, h1, h2]
  · decide

set_option maxHeartbeats 4000000 in
/-- C8: evaluating `"x = y;"` against an empty environment yields exactly
the one error `"1:5: Unknown variable 'y'"` and leaves `x` unbound. -/
theorem unknown_variable_error_message :
    update_code "x = y;" [] = (["1:5: Unknown variable 'y'"], []) ∧
      lookup_variable (update_code "x = y;" []).2 "x" = none := by
  decide

/-- C1 counterexample: executing the statement sequence of the script
`"x = y; a = 1;"` (its parsed AST written out, tokens and locations as the
parser produces them) from an empty environment records the one error for
the first statement and leaves `a` unbound — the later statement `a = 1;`
is NOT executed, contradicting the claim that every later statement still
runs. -/
theorem update_code_halts_on_first_error_example :
    run_statements
        [.Assignment ⟨2, 1, 3⟩ "x" ⟨⟨0, 1, 1⟩, .Name "x"⟩ ⟨⟨2, 1, 3⟩, .Equal⟩
            (.Name ⟨4, 1, 5⟩ "y" ⟨⟨4, 1, 5⟩, .Name "y"⟩),
          .Assignment ⟨9, 1, 10⟩ "a" ⟨⟨7, 1, 8⟩, .Name "a"⟩ ⟨⟨9, 1, 10⟩, .Equal⟩
            (.Number ⟨11, 1, 12⟩ 1 ⟨⟨11, 1, 12⟩, .Number 1⟩)] [] [] =
        (["1:5: Unknown variable 'y'"], []) ∧
      lookup_variable
          (run_statements
            [.Assignment ⟨2, 1, 3⟩ "x" ⟨⟨0, 1, 1⟩, .Name "x"⟩ ⟨⟨2, 1, 3⟩, .Equal⟩
                (.Name ⟨4, 1, 5⟩ "y" ⟨⟨4, 1, 5⟩, .Name "y"⟩),
              .Assignment ⟨9, 1, 10⟩ "a" ⟨⟨7, 1, 8⟩, .Name "a"⟩ ⟨⟨9, 1, 10⟩, .Equal⟩
                (.Number ⟨11, 1, 12⟩ 1 ⟨⟨11, 1, 12⟩, .Number 1⟩)] [] []).2 "a" =
        none := by
  constructor
  · decide
  · decide

/-- C1 (amended): when a statement's expression fails to evaluate, the
error is recorded, the assignment is skipped (the environment is returned
unmodified), and evaluation stops — the remaining statements are not
executed (the `break 'evaluation` in `App::update_code`). -/
theorem run_statements_error_aborts :
    ∀ (loc : Location) (name : String) (name_token equals_token : Token)
      (value : AstExpression) (rest : List AstStatement) (vars : Variables)
      (errors : List String) (e : String),
      evaluate_value value vars = .error e →
      run_statements (.Assignment loc name name_token equals_token value :: rest)
          vars errors =
        (errors ++ [e], vars) := by
  intro loc name ntok etok value rest vars errors e h
  simp only [run_statements, h]

/-- C1 witness: the abort behaviour at a concrete input, the statement
sequence of the script `"z = w; v = 2;"` — the first statement's
unknown-variable error is recorded and the second statement is discarded. -/
theorem run_statements_error_aborts_witness :
    run_statements
        [.Assignment ⟨2, 1, 3⟩ "z" ⟨⟨0, 1, 1⟩, .Name "z"⟩ ⟨⟨2, 1, 3⟩, .Equal⟩
            (.Name ⟨4, 1, 5⟩ "w" ⟨⟨4, 1, 5⟩, .Name "w"⟩),
          .Assignment ⟨9, 1, 10⟩ "v" ⟨⟨7, 1, 8⟩, .Name "v"⟩ ⟨⟨9, 1, 10⟩, .Equal⟩
            (.Number ⟨11, 1, 12⟩ 2 ⟨⟨11, 1, 12⟩, .Number 2⟩)] [] [] =
      (["1:5: Unknown variable 'w'"], []) :=
  run_statements_error_aborts ⟨2, 1, 3⟩ "z" ⟨⟨0, 1, 1⟩, .Name "z"⟩
    ⟨⟨2, 1, 3⟩, .Equal⟩ (.Name ⟨4, 1, 5⟩ "w" ⟨⟨4, 1, 5⟩, .Name "w"⟩)
    [.Assignment ⟨9, 1, 10⟩ "v" ⟨⟨7, 1, 8⟩, .Name "v"⟩ ⟨⟨9, 1, 10⟩, .Equal⟩
      (.Number ⟨11, 1, 12⟩ 2 ⟨⟨11, 1, 12⟩, .Number 2⟩)] [] []
    "1:5: Unknown variable 'w'" (by decide)

set_option maxHeartbeats 4000000 in
/-- C2 counterexample: `"x = normalize e1;"` does not parse — the compiled
crate's parser accepts only `-`, `!`, `~` as unary operators, so the
`normalize` keyword token in expression position is an `UnexpectedToken`
parse error, contradicting the claim that parsing succeeds. -/
theorem parse_normalize_unary_fails :
    parse "x = normalize e1;" =
      .error ⟨⟨4, 1, 5⟩, .UnexpectedToken ⟨⟨4, 1, 5⟩, .NormalizeKeyword⟩⟩ := by
  decide

set_option maxHeartbeats 4000000 in
/-- C2 (amended): for every one of the six reserved keywords, a unary
application of it fails to parse with an `UnexpectedToken` error at the
keyword token (the keyword operations exist only in `evaluation.rs`, which
is not a module of the compiled crate). -/
theorem keyword_unary_parse_errors :
    ∀ kw : String, kw ∈ ["normalize", "magnitude", "sin", "cos", "asin", "acos"] →
      ∃ k : TokenKind,
        parse ("x = " ++ kw ++ " e1;") =
          .error ⟨⟨4, 1, 5⟩, .UnexpectedToken ⟨⟨4, 1, 5⟩, k⟩⟩ := by
  intro kw h
  fin_cases h
  · exact ⟨.NormalizeKeyword, by decide⟩
  · exact ⟨.MagnitudeKeyword, by decide⟩
  · exact ⟨.SinKeyword, by decide⟩
  · exact ⟨.CosKeyword, by decide⟩
  · exact ⟨.ASinKeyword, by decide⟩
  · exact ⟨.ACosKeyword, by decide⟩

/-- C2 witness: the amended statement at the keyword `magnitude`. -/
theorem keyword_unary_parse_errors_witness :
    ∃ k : TokenKind,
      parse ("x = " ++ "magnitude" ++ " e1;") =
        .error ⟨⟨4, 1, 5⟩, .UnexpectedToken ⟨⟨4, 1, 5⟩, k⟩⟩ :=
  keyword_unary_parse_errors "magnitude" (by simp)
